import Mathlib

/-!
Shallow embedding of the challan (device-allocation request) approval
workflow: the `challans` / `users` tables of `database.py`, the store
operations of `ChallanDatabase`, and the MCP tool handlers of
`mcp_server.py` (`create_challan`, `approve_challan`, `reject_challan`,
`get_pending_approvals`).  Timestamps are modelled as natural numbers
passed explicitly (`datetime.now()` / `CURRENT_TIMESTAMP` become a `now`
argument); SQL `NULL` becomes `Option`; the SQLite `UNIQUE` constraint on
`challans.serial_number` becomes an explicit membership test whose failure
is the `IntegrityError` the server's `try/except` turns into an error
reply.
-/

namespace ChallanMCP

/-- One row of the `challans` table (schema in `database.py`, `init_db`). -/
structure Challan where
  id : Nat
  device_type : String
  device_model : String
  serial_number : String
  quantity : Int
  purpose : String
  requested_by : String
  request_date : Nat
  manager_status : String
  manager_approval_date : Option Nat
  hod_status : String
  hod_approval_date : Option Nat
  it_status : String
  it_approval_date : Option Nat
  final_status : String
  remarks : Option String
deriving Repr, DecidableEq

/-- One row of the `users` table (password omitted: never read by the
workflow operations). -/
structure User where
  username : String
  role : String
  department : String
  full_name : String
deriving Repr, DecidableEq

/-- The store: the two tables the workflow reads and writes, plus the next
`AUTOINCREMENT` id for `challans`. -/
structure DB where
  challans : List Challan
  users : List User
  nextId : Nat
deriving Repr, DecidableEq

/-- SQL `COALESCE(a, b)` on two nullable strings. -/
def coalesce (a b : Option String) : Option String :=
  match a with
  | some v => some v
  | none => b

namespace ChallanDatabase

/-- A freshly inserted challan row: the six caller-supplied columns plus
the schema defaults (`pending` statuses, `NULL` dates and remarks,
`request_date = CURRENT_TIMESTAMP`). -/
def newChallan (id : Nat) (device_type device_model serial_number : String)
    (quantity : Int) (purpose requested_by : String) (now : Nat) : Challan :=
  { id := id
    device_type := device_type
    device_model := device_model
    serial_number := serial_number
    quantity := quantity
    purpose := purpose
    requested_by := requested_by
    request_date := now
    manager_status := "pending"
    manager_approval_date := none
    hod_status := "pending"
    hod_approval_date := none
    it_status := "pending"
    it_approval_date := none
    final_status := "pending"
    remarks := none }

/-- `ChallanDatabase.create_challan`: `INSERT INTO challans (...)`.  The
`UNIQUE` constraint on `serial_number` makes the insert raise
`IntegrityError` when the serial number is already present; otherwise the
row is appended with the schema defaults and `lastrowid` is returned. -/
def create_challan (db : DB) (device_type device_model serial_number : String)
    (quantity : Int) (purpose requested_by : String) (now : Nat) :
    Except String (DB × Nat) :=
  if db.challans.any (fun c => c.serial_number == serial_number) then
    Except.error "UNIQUE constraint failed: challans.serial_number"
  else
    Except.ok
      ({ db with
          challans := db.challans ++
            [newChallan db.nextId device_type device_model serial_number
              quantity purpose requested_by now]
          nextId := db.nextId + 1 },
        db.nextId)

/-- `ChallanDatabase.get_challan_status`: `SELECT * FROM challans WHERE
id = ?` with `fetchone`. -/
def get_challan_status (db : DB) (challan_id : Nat) : Option Challan :=
  db.challans.find? (fun c => c.id == challan_id)

/-- `ChallanDatabase.get_user_by_username`: `SELECT * FROM users WHERE
username = ?` with `fetchone`. -/
def get_user_by_username (db : DB) (username : String) : Option User :=
  db.users.find? (fun u => u.username == username)

/-- `UPDATE challans SET ... WHERE id = ?`: apply `f` to every row whose
`id` matches (`id` is the primary key, so at most one in a well-formed
store). -/
def updateWhere (db : DB) (challan_id : Nat) (f : Challan → Challan) : DB :=
  { db with
      challans := db.challans.map (fun c => if c.id == challan_id then f c else c) }

/-- The `SET` clause of the `role == 'manager'` branch of
`update_approval_status`. -/
def set_manager_row (status : String) (now : Nat) (remarks : Option String)
    (c : Challan) : Challan :=
  { c with
      manager_status := status
      manager_approval_date := some now
      remarks := coalesce remarks c.remarks }

/-- The `SET` clause of the `role == 'hod'` branch of
`update_approval_status`. -/
def set_hod_row (status : String) (now : Nat) (remarks : Option String)
    (c : Challan) : Challan :=
  { c with
      hod_status := status
      hod_approval_date := some now
      remarks := coalesce remarks c.remarks }

/-- The `SET` clause of the `role == 'it_admin'` branch of
`update_approval_status` (the only branch that also writes
`final_status`, set to the same value as `it_status`). -/
def set_it_row (status : String) (now : Nat) (remarks : Option String)
    (c : Challan) : Challan :=
  { c with
      it_status := status
      it_approval_date := some now
      final_status := status
      remarks := coalesce remarks c.remarks }

/-- `ChallanDatabase.update_approval_status`: three role branches, each a
single-row `UPDATE`; any other role runs no statement and the call returns
normally (no exception, no error report). -/
def update_approval_status (db : DB) (challan_id : Nat) (role status : String)
    (now : Nat) (remarks : Option String) : DB :=
  if role = "manager" then
    updateWhere db challan_id (set_manager_row status now remarks)
  else if role = "hod" then
    updateWhere db challan_id (set_hod_row status now remarks)
  else if role = "it_admin" then
    updateWhere db challan_id (set_it_row status now remarks)
  else
    db

/-- Sort key of `ORDER BY request_date DESC`: newest first. -/
def dateGe (a b : Challan) : Prop :=
  b.request_date ≤ a.request_date

instance : DecidableRel dateGe := fun a b =>
  inferInstanceAs (Decidable (b.request_date ≤ a.request_date))

instance : IsTotal Challan dateGe :=
  ⟨fun a b => (Nat.le_total b.request_date a.request_date).imp id id⟩

instance : IsTrans Challan dateGe :=
  ⟨fun _ _ _ h1 h2 => Nat.le_trans h2 h1⟩

/-- `WHERE manager_status = "pending"`. -/
def manager_pending (c : Challan) : Bool :=
  c.manager_status == "pending"

/-- `WHERE manager_status = "approved" AND hod_status = "pending"`. -/
def hod_pending (c : Challan) : Bool :=
  c.manager_status == "approved" && c.hod_status == "pending"

/-- `WHERE manager_status = "approved" AND hod_status = "approved" AND
it_status = "pending"`. -/
def it_pending (c : Challan) : Bool :=
  c.manager_status == "approved" && c.hod_status == "approved" &&
    c.it_status == "pending"

/-- `ChallanDatabase.get_pending_approvals`: per-role filtered `SELECT`
with `ORDER BY request_date DESC` (modelled by sorting the filtered rows
by descending `request_date`). -/
def get_pending_approvals (db : DB) (role : String) : List Challan :=
  if role = "manager" then
    List.insertionSort dateGe (db.challans.filter manager_pending)
  else if role = "hod" then
    List.insertionSort dateGe (db.challans.filter hod_pending)
  else if role = "it_admin" then
    List.insertionSort dateGe (db.challans.filter it_pending)
  else
    []

end ChallanDatabase

/-- The distinct replies of the MCP tool handlers, one constructor per
`return` site the claims distinguish. -/
inductive ToolResult where
  /-- "Error: Challan with ID {id} not found." -/
  | challanNotFound
  /-- "Error: User/Approver/Rejecter '{username}' not found." -/
  | userNotFound
  /-- "Error: User '{username}' does not have required role '{role}'." -/
  | roleMismatch
  /-- "Error: Cannot approve at HOD level before Manager approval." -/
  | hodBeforeManager
  /-- "Error: Cannot approve at IT level before Manager and HOD approvals." -/
  | itBeforeApprovals
  /-- "Error creating challan: ..." (the caught `IntegrityError`). -/
  | createError
  /-- "Challan created successfully! ... Challan ID: {id}". -/
  | okCreated (challan_id : Nat)
  /-- The success reply of `approve_challan` / `reject_challan`. -/
  | ok
deriving Repr, DecidableEq

namespace McpServer

open ChallanDatabase

/-- MCP tool `create_challan` (`mcp_server.py`): validates only that the
requester exists, then inserts; the `try/except` turns a duplicate-serial
`IntegrityError` into an error reply with nothing inserted. -/
def create_challan (db : DB) (device_type device_model serial_number : String)
    (quantity : Int) (purpose requested_by : String) (now : Nat) :
    DB × ToolResult :=
  match get_user_by_username db requested_by with
  | none => (db, ToolResult.userNotFound)
  | some _ =>
    match ChallanDatabase.create_challan db device_type device_model
        serial_number quantity purpose requested_by now with
    | Except.error _ => (db, ToolResult.createError)
    | Except.ok (db2, cid) => (db2, ToolResult.okCreated cid)

/-- MCP tool `approve_challan` (`mcp_server.py`): challan lookup, approver
lookup, role check, then the two workflow-order checks, then the status
update with `'approved'`. -/
def approve_challan (db : DB) (challan_id : Nat)
    (role approver_username : String) (remarks : Option String) (now : Nat) :
    DB × ToolResult :=
  match get_challan_status db challan_id with
  | none => (db, ToolResult.challanNotFound)
  | some challan =>
    match get_user_by_username db approver_username with
    | none => (db, ToolResult.userNotFound)
    | some approver =>
      if approver.role ≠ role then
        (db, ToolResult.roleMismatch)
      else if role = "hod" ∧ challan.manager_status ≠ "approved" then
        (db, ToolResult.hodBeforeManager)
      else if role = "it_admin" ∧
          (challan.manager_status ≠ "approved" ∨ challan.hod_status ≠ "approved") then
        (db, ToolResult.itBeforeApprovals)
      else
        (update_approval_status db challan_id role "approved" now remarks,
          ToolResult.ok)

/-- MCP tool `reject_challan` (`mcp_server.py`): challan lookup, rejecter
lookup, role check, then the status update with `'rejected'` — there is no
workflow-order check on the rejection path. -/
def reject_challan (db : DB) (challan_id : Nat)
    (role rejecter_username : String) (rejection_reason : String) (now : Nat) :
    DB × ToolResult :=
  match get_challan_status db challan_id with
  | none => (db, ToolResult.challanNotFound)
  | some _ =>
    match get_user_by_username db rejecter_username with
    | none => (db, ToolResult.userNotFound)
    | some rejecter =>
      if rejecter.role ≠ role then
        (db, ToolResult.roleMismatch)
      else
        (update_approval_status db challan_id role "rejected" now
            (some rejection_reason),
          ToolResult.ok)

end McpServer

/-- The spec's derivation of `final_status` from the three stage statuses
(spec §3): approved only when all three stages are approved, rejected as
soon as any stage is rejected, pending otherwise.  Stated from the spec's
words, to be compared with the stored `final_status`. -/
def spec_final_status (c : Challan) : String :=
  if c.manager_status = "approved" ∧ c.hod_status = "approved" ∧
      c.it_status = "approved" then "approved"
  else if c.manager_status = "rejected" ∨ c.hod_status = "rejected" ∨
      c.it_status = "rejected" then "rejected"
  else "pending"

/-! Concrete stores used as test inputs: a few of the sample users from
`populate_sample_data` and one freshly created request. -/

/-- Sample users covering the four roles. -/
def sampleUsers : List User :=
  [ { username := "john_manager", role := "manager", department := "Operations",
      full_name := "John Manager" },
    { username := "mike_hod", role := "hod", department := "IT",
      full_name := "Mike HOD" },
    { username := "tech_admin", role := "it_admin", department := "IT Inventory",
      full_name := "Tech Admin" },
    { username := "alice_sales", role := "user", department := "Sales",
      full_name := "Alice Sales" } ]

/-- A freshly created request (all stage statuses `pending`). -/
def freshChallan : Challan :=
  ChallanDatabase.newChallan 1 "phone" "Samsung Galaxy S23" "SN100" 1
    "New employee onboarding" "alice_sales" 10

/-- A store holding one fresh request. -/
def freshDB : DB :=
  { challans := [freshChallan], users := sampleUsers, nextId := 2 }

/-- The store after the manager rejects the fresh request (a state
reachable by running `reject_challan`). -/
def managerRejectedDB : DB :=
  (McpServer.reject_challan freshDB 1 "manager" "john_manager"
    "Not aligned with department goals" 11).1

/-- C1 (code_bug): a manager rejection is accepted, sets
`manager_status = "rejected"`, yet leaves the stored `final_status` at
`"pending"` while the spec's derivation yields `"rejected"` — only the
`it_admin` branch of `update_approval_status` ever writes
`final_status`. -/
theorem C1_final_status_stale_after_manager_reject :
    (McpServer.reject_challan freshDB 1 "manager" "john_manager"
        "Not aligned with department goals" 11).2 = ToolResult.ok ∧
    (ChallanDatabase.get_challan_status managerRejectedDB 1).map
        Challan.manager_status = some "rejected" ∧
    (ChallanDatabase.get_challan_status managerRejectedDB 1).map
        Challan.final_status = some "pending" ∧
    (ChallanDatabase.get_challan_status managerRejectedDB 1).map
        spec_final_status = some "rejected" := by
  decide

/-- C2 (counterexample): a `reject` at the `hod` stage of a fresh request
violates the hod guard (`manager_status == approved ∧ hod_status ==
pending` fails since the manager is still pending), yet the call is
accepted and mutates the request — `reject_challan` has no workflow-order
check. -/
theorem C2_reject_accepted_despite_guard_failure :
    freshChallan.manager_status = "pending" ∧
    (McpServer.reject_challan freshDB 1 "hod" "mike_hod" "overreach" 12).2 =
      ToolResult.ok ∧
    (ChallanDatabase.get_challan_status
        (McpServer.reject_challan freshDB 1 "hod" "mike_hod" "overreach" 12).1
        1).map Challan.hod_status = some "rejected" := by
  decide

/-- C3 (counterexample): after the manager stage is `rejected`, a `reject`
call on the later `hod` stage still succeeds and changes the request's
`hod_status` from `pending` to `rejected` — the finality of rejection is
only enforced on the approve path. -/
theorem C3_later_reject_succeeds_after_rejection :
    (ChallanDatabase.get_challan_status managerRejectedDB 1).map
        Challan.manager_status = some "rejected" ∧
    (ChallanDatabase.get_challan_status managerRejectedDB 1).map
        Challan.hod_status = some "pending" ∧
    (McpServer.reject_challan managerRejectedDB 1 "hod" "mike_hod" "late" 12).2 =
      ToolResult.ok ∧
    (ChallanDatabase.get_challan_status
        (McpServer.reject_challan managerRejectedDB 1 "hod" "mike_hod" "late"
          12).1 1).map Challan.hod_status = some "rejected" := by
  decide

/-- C4 (counterexample): a submit with quantity `0` and an empty serial
number is accepted and inserted — neither `create_challan` handler
validates quantity positivity or serial non-emptiness. -/
theorem C4_zero_quantity_empty_serial_accepted :
    (McpServer.create_challan freshDB "phone" "Samsung Galaxy A54" "" 0
        "test" "alice_sales" 20).2 = ToolResult.okCreated 2 ∧
    (McpServer.create_challan freshDB "phone" "Samsung Galaxy A54" "" 0
        "test" "alice_sales" 20).1.challans.length = 2 ∧
    (ChallanDatabase.get_challan_status
        (McpServer.create_challan freshDB "phone" "Samsung Galaxy A54" "" 0
          "test" "alice_sales" 20).1 2).map Challan.quantity = some 0 := by
  decide

/-- C5: whenever the actor resolves but its stored role differs from the
`role` argument, both decide paths return the role-mismatch error and
leave the store untouched, whatever the request's stage statuses are. -/
theorem C5_role_mismatch_always_rejected (db : DB) (challan_id : Nat)
    (role username : String) (remarks : Option String) (reason : String)
    (now : Nat) (c : Challan) (user : User)
    (hc : ChallanDatabase.get_challan_status db challan_id = some c)
    (hu : ChallanDatabase.get_user_by_username db username = some user)
    (hr : user.role ≠ role) :
    McpServer.approve_challan db challan_id role username remarks now =
      (db, ToolResult.roleMismatch) ∧
    McpServer.reject_challan db challan_id role username reason now =
      (db, ToolResult.roleMismatch) := by
  unfold McpServer.approve_challan McpServer.reject_challan
  rw [hc, hu]
  simp [hr]

/-- Witness for C5 at a concrete store: an hod user claiming the manager
role. -/
theorem C5_witness :
    McpServer.approve_challan freshDB 1 "manager" "mike_hod" none 12 =
      (freshDB, ToolResult.roleMismatch) ∧
    McpServer.reject_challan freshDB 1 "manager" "mike_hod" "r" 12 =
      (freshDB, ToolResult.roleMismatch) :=
  C5_role_mismatch_always_rejected freshDB 1 "manager" "mike_hod" none "r" 12
    freshChallan
    { username := "mike_hod", role := "hod", department := "IT",
      full_name := "Mike HOD" }
    (by decide) (by decide) (by decide)

/-- C10: `update_approval_status` with a role outside
{manager, hod, it_admin} runs none of its three `UPDATE` branches: the
store is returned entirely unchanged and the call reports no error. -/
theorem C10_unknown_role_noop (db : DB) (challan_id : Nat)
    (role status : String) (now : Nat) (remarks : Option String)
    (h1 : role ≠ "manager") (h2 : role ≠ "hod") (h3 : role ≠ "it_admin") :
    ChallanDatabase.update_approval_status db challan_id role status now remarks
      = db := by
  unfold ChallanDatabase.update_approval_status
  simp [h1, h2, h3]

/-- Witness for C10 at a concrete store and the role `"ceo"`. -/
theorem C10_witness :
    ChallanDatabase.update_approval_status freshDB 1 "ceo" "approved" 12 none =
      freshDB :=
  C10_unknown_role_noop freshDB 1 "ceo" "approved" 12 none
    (by decide) (by decide) (by decide)

/-- C2 (amended): the decide guards as implemented.  Approve at `hod`
fails with the sequence error iff the manager stage is not `approved`, and
approve at `it_admin` iff manager or hod is not `approved` — no `==
pending` condition on the targeted stage; approve at `manager` and every
reject call are accepted with no stage guard at all.  A failing guard
leaves the store unchanged. -/
theorem C2_guards_as_implemented (db : DB) (challan_id : Nat)
    (role username : String) (remarks : Option String) (reason : String)
    (now : Nat) (c : Challan) (user : User)
    (hc : ChallanDatabase.get_challan_status db challan_id = some c)
    (hu : ChallanDatabase.get_user_by_username db username = some user)
    (hrole : user.role = role) :
    ((role = "hod" ∧ c.manager_status ≠ "approved") →
      McpServer.approve_challan db challan_id role username remarks now =
        (db, ToolResult.hodBeforeManager)) ∧
    ((role = "hod" ∧ c.manager_status = "approved") →
      (McpServer.approve_challan db challan_id role username remarks now).2 =
        ToolResult.ok) ∧
    ((role = "it_admin" ∧
        (c.manager_status ≠ "approved" ∨ c.hod_status ≠ "approved")) →
      McpServer.approve_challan db challan_id role username remarks now =
        (db, ToolResult.itBeforeApprovals)) ∧
    ((role = "it_admin" ∧ c.manager_status = "approved" ∧
        c.hod_status = "approved") →
      (McpServer.approve_challan db challan_id role username remarks now).2 =
        ToolResult.ok) ∧
    (role = "manager" →
      (McpServer.approve_challan db challan_id role username remarks now).2 =
        ToolResult.ok) ∧
    (McpServer.reject_challan db challan_id role username reason now).2 =
      ToolResult.ok := by
  unfold McpServer.approve_challan McpServer.reject_challan
  rw [hc, hu]
  refine ⟨?_, ?_, ?_, ?_, ?_, ?_⟩
  · rintro ⟨hr, hm⟩
    subst hr
    simp [hrole, hm]
  · rintro ⟨hr, hm⟩
    subst hr
    simp [hrole, hm]
  · rintro ⟨hr, hmh⟩
    subst hr
    rcases hmh with hm | hh
    · simp [hrole, hm]
    · simp [hrole, hh]
  · rintro ⟨hr, hm, hh⟩
    subst hr
    simp [hrole, hm, hh]
  · intro hr
    subst hr
    simp [hrole]
  · simp [hrole]

/-- Witness for C2 at a concrete store: approving at hod on a fresh
request fails with the sequence error and leaves the store unchanged. -/
theorem C2_witness :
    McpServer.approve_challan freshDB 1 "hod" "mike_hod" none 12 =
      (freshDB, ToolResult.hodBeforeManager) :=
  (C2_guards_as_implemented freshDB 1 "hod" "mike_hod" none "r" 12
      freshChallan
      { username := "mike_hod", role := "hod", department := "IT",
        full_name := "Mike HOD" }
      (by decide) (by decide) (by decide)).1 ⟨rfl, by decide⟩

/-- C3 (amended): once an earlier stage is `rejected`, every subsequent
*approve* call on a later stage fails with the sequence error and leaves
the store unchanged (a rejected prior stage never satisfies the
`= "approved"` check); reject calls on later stages are not guarded and
succeed. -/
theorem C3_rejection_blocks_later_approvals (db : DB) (challan_id : Nat)
    (username : String) (remarks : Option String) (now : Nat)
    (c : Challan) (user : User)
    (hc : ChallanDatabase.get_challan_status db challan_id = some c)
    (hu : ChallanDatabase.get_user_by_username db username = some user) :
    (c.manager_status = "rejected" → user.role = "hod" →
      McpServer.approve_challan db challan_id "hod" username remarks now =
        (db, ToolResult.hodBeforeManager)) ∧
    (c.manager_status = "rejected" → user.role = "it_admin" →
      McpServer.approve_challan db challan_id "it_admin" username remarks now =
        (db, ToolResult.itBeforeApprovals)) ∧
    (c.hod_status = "rejected" → user.role = "it_admin" →
      McpServer.approve_challan db challan_id "it_admin" username remarks now =
        (db, ToolResult.itBeforeApprovals)) := by
  unfold McpServer.approve_challan
  rw [hc, hu]
  refine ⟨?_, ?_, ?_⟩
  · intro hm hr
    simp [hr, hm]
  · intro hm hr
    simp [hr, hm]
  · intro hh hr
    simp [hr, hh]

/-- Witness for C3 at a concrete store: after a manager rejection, the hod
approve attempt fails and changes nothing. -/
theorem C3_witness :
    McpServer.approve_challan managerRejectedDB 1 "hod" "mike_hod" none 12 =
      (managerRejectedDB, ToolResult.hodBeforeManager) :=
  (C3_rejection_blocks_later_approvals managerRejectedDB 1 "mike_hod" none 12
      { freshChallan with
          manager_status := "rejected"
          manager_approval_date := some 11
          remarks := some "Not aligned with department goals" }
      { username := "mike_hod", role := "hod", department := "IT",
        full_name := "Mike HOD" }
      (by decide) (by decide)).1 (by decide) (by decide)

/-- C4 (amended): submit validates only that the requester resolves (and
the store's serial-uniqueness constraint): an unknown requester and a
duplicate serial each fail with nothing inserted, while any other call —
including quantity ≤ 0 and an empty serial number — inserts the request
unconditionally. -/
theorem C4_submit_validation_as_implemented (db : DB)
    (dt dm sn : String) (q : Int) (p rb : String) (now : Nat) :
    (ChallanDatabase.get_user_by_username db rb = none →
      McpServer.create_challan db dt dm sn q p rb now =
        (db, ToolResult.userNotFound)) ∧
    (∀ user, ChallanDatabase.get_user_by_username db rb = some user →
      (db.challans.any (fun c => c.serial_number == sn) = true →
        McpServer.create_challan db dt dm sn q p rb now =
          (db, ToolResult.createError)) ∧
      (db.challans.any (fun c => c.serial_number == sn) = false →
        McpServer.create_challan db dt dm sn q p rb now =
          ({ db with
              challans := db.challans ++
                [ChallanDatabase.newChallan db.nextId dt dm sn q p rb now]
              nextId := db.nextId + 1 },
            ToolResult.okCreated db.nextId))) := by
  refine ⟨?_, ?_⟩
  · intro hu
    unfold McpServer.create_challan
    rw [hu]
  · intro user hu
    refine ⟨?_, ?_⟩ <;> intro hdup <;>
      unfold McpServer.create_challan ChallanDatabase.create_challan <;>
      rw [hu] <;> simp [hdup]

/-- Witness for C4 at a concrete store: an unknown requester is refused
with the store unchanged. -/
theorem C4_witness :
    McpServer.create_challan freshDB "phone" "Samsung Galaxy A54" "SN300" 1
      "test" "ghost" 20 = (freshDB, ToolResult.userNotFound) :=
  (C4_submit_validation_as_implemented freshDB "phone" "Samsung Galaxy A54"
      "SN300" 1 "test" "ghost" 20).1 (by decide)

/-- No two stored requests share a serial number (the `UNIQUE` constraint
of the `challans` schema, phrased as a count bound). -/
def unique_serials (db : DB) : Prop :=
  ∀ s : String, db.challans.countP (fun c => c.serial_number == s) ≤ 1

/-- C6: submitting twice with the same serial number: the first call
inserts, the second fails with the duplicate-serial error and changes
nothing, the store then holds exactly one request with that serial
number, and serial-number uniqueness is preserved. -/
theorem C6_duplicate_serial_rejected (db : DB) (dt dm sn : String) (q : Int)
    (p rb : String) (n1 n2 : Nat) (user : User)
    (hu : ChallanDatabase.get_user_by_username db rb = some user)
    (h0 : db.challans.countP (fun c => c.serial_number == sn) = 0) :
    (McpServer.create_challan db dt dm sn q p rb n1).2 =
      ToolResult.okCreated db.nextId ∧
    McpServer.create_challan (McpServer.create_challan db dt dm sn q p rb n1).1
        dt dm sn q p rb n2 =
      ((McpServer.create_challan db dt dm sn q p rb n1).1,
        ToolResult.createError) ∧
    (McpServer.create_challan db dt dm sn q p rb n1).1.challans.countP
        (fun c => c.serial_number == sn) = 1 ∧
    (unique_serials db →
      unique_serials (McpServer.create_challan db dt dm sn q p rb n1).1) := by
  have hany : db.challans.any (fun c => c.serial_number == sn) = false := by
    rw [List.any_eq_false]
    intro x hx
    exact List.countP_eq_zero.mp h0 x hx
  have h1 : McpServer.create_challan db dt dm sn q p rb n1 =
      ({ db with
          challans := db.challans ++
            [ChallanDatabase.newChallan db.nextId dt dm sn q p rb n1]
          nextId := db.nextId + 1 },
        ToolResult.okCreated db.nextId) := by
    unfold McpServer.create_challan ChallanDatabase.create_challan
    rw [hu]
    simp [hany]
  rw [h1]
  have hu1 : ChallanDatabase.get_user_by_username
      { db with
          challans := db.challans ++
            [ChallanDatabase.newChallan db.nextId dt dm sn q p rb n1]
          nextId := db.nextId + 1 } rb = some user := hu
  have hany1 : (db.challans ++
        [ChallanDatabase.newChallan db.nextId dt dm sn q p rb n1]).any
      (fun c => c.serial_number == sn) = true := by
    simp [ChallanDatabase.newChallan]
  refine ⟨rfl, ?_, ?_, ?_⟩
  · unfold McpServer.create_challan ChallanDatabase.create_challan
    rw [hu1]
    simp only [hany1]
    rfl
  · rw [List.countP_append, h0, ChallanDatabase.newChallan]
    simp
  · intro hun s
    show List.countP (fun c => c.serial_number == s)
      (db.challans ++
        [ChallanDatabase.newChallan db.nextId dt dm sn q p rb n1]) ≤ 1
    rw [List.countP_append]
    by_cases hs : s = sn
    · subst hs
      rw [h0, ChallanDatabase.newChallan]
      simp
    · have hzero : List.countP (fun c => c.serial_number == s)
          [ChallanDatabase.newChallan db.nextId dt dm sn q p rb n1] = 0 := by
        simp only [List.countP_cons, List.countP_nil, ChallanDatabase.newChallan]
        simp [Ne.symm hs]
      rw [hzero]
      simpa using hun s

/-- Witness for C6 at a concrete store: two submits with serial
`"SN200"`. -/
theorem C6_witness :
    (McpServer.create_challan freshDB "phone" "Samsung Galaxy A54" "SN200" 1
        "test" "alice_sales" 20).2 = ToolResult.okCreated 2 ∧
    McpServer.create_challan
        (McpServer.create_challan freshDB "phone" "Samsung Galaxy A54" "SN200"
          1 "test" "alice_sales" 20).1
        "phone" "Samsung Galaxy A54" "SN200" 1 "test" "alice_sales" 21 =
      ((McpServer.create_challan freshDB "phone" "Samsung Galaxy A54" "SN200" 1
          "test" "alice_sales" 20).1,
        ToolResult.createError) ∧
    (McpServer.create_challan freshDB "phone" "Samsung Galaxy A54" "SN200" 1
        "test" "alice_sales" 20).1.challans.countP
      (fun c => c.serial_number == "SN200") = 1 ∧
    (unique_serials freshDB →
      unique_serials (McpServer.create_challan freshDB "phone"
        "Samsung Galaxy A54" "SN200" 1 "test" "alice_sales" 20).1) :=
  C6_duplicate_serial_rejected freshDB "phone" "Samsung Galaxy A54" "SN200" 1
    "test" "alice_sales" 20 21
    { username := "alice_sales", role := "user", department := "Sales",
      full_name := "Alice Sales" }
    (by decide) (by decide)

/-- C7: for each of the three roles, `get_pending_approvals` returns
exactly the stored requests satisfying that role's guard predicate (as a
permutation of the filtered table, so with multiplicity) ordered by
descending creation timestamp. -/
theorem C7_pending_for_exact_and_sorted (db : DB) :
    ((ChallanDatabase.get_pending_approvals db "manager").Perm
        (db.challans.filter ChallanDatabase.manager_pending) ∧
      List.Sorted ChallanDatabase.dateGe
        (ChallanDatabase.get_pending_approvals db "manager")) ∧
    ((ChallanDatabase.get_pending_approvals db "hod").Perm
        (db.challans.filter ChallanDatabase.hod_pending) ∧
      List.Sorted ChallanDatabase.dateGe
        (ChallanDatabase.get_pending_approvals db "hod")) ∧
    ((ChallanDatabase.get_pending_approvals db "it_admin").Perm
        (db.challans.filter ChallanDatabase.it_pending) ∧
      List.Sorted ChallanDatabase.dateGe
        (ChallanDatabase.get_pending_approvals db "it_admin")) := by
  have e1 : ChallanDatabase.get_pending_approvals db "manager" =
      List.insertionSort ChallanDatabase.dateGe
        (db.challans.filter ChallanDatabase.manager_pending) := by
    unfold ChallanDatabase.get_pending_approvals
    rw [if_pos rfl]
  have e2 : ChallanDatabase.get_pending_approvals db "hod" =
      List.insertionSort ChallanDatabase.dateGe
        (db.challans.filter ChallanDatabase.hod_pending) := by
    unfold ChallanDatabase.get_pending_approvals
    rw [if_neg (by decide), if_pos rfl]
  have e3 : ChallanDatabase.get_pending_approvals db "it_admin" =
      List.insertionSort ChallanDatabase.dateGe
        (db.challans.filter ChallanDatabase.it_pending) := by
    unfold ChallanDatabase.get_pending_approvals
    rw [if_neg (by decide), if_neg (by decide), if_pos rfl]
  rw [e1, e2, e3]
  exact ⟨⟨List.perm_insertionSort _ _, List.sorted_insertionSort _ _⟩,
    ⟨List.perm_insertionSort _ _, List.sorted_insertionSort _ _⟩,
    ⟨List.perm_insertionSort _ _, List.sorted_insertionSort _ _⟩⟩

/-- One stage decision as passed to `update_approval_status`: the role
branch taken, the status written, the decision timestamp and the optional
remarks. -/
structure Decision where
  role : String
  status : String
  time : Nat
  remarks : Option String
deriving Repr, DecidableEq

/-- Run a sequence of stage decisions on one request through
`update_approval_status`. -/
def apply_decisions (db : DB) (challan_id : Nat) (ds : List Decision) : DB :=
  ds.foldl
    (fun d dec =>
      ChallanDatabase.update_approval_status d challan_id dec.role dec.status
        dec.time dec.remarks)
    db

/-- The last non-null remarks value in a decision sequence (none when every
decision carried null remarks). -/
def last_remarks (ds : List Decision) : Option String :=
  ds.foldl (fun acc dec => coalesce dec.remarks acc) none

theorem coalesce_none_right (a : Option String) : coalesce a none = a := by
  cases a <;> rfl

theorem coalesce_assoc (a b c : Option String) :
    coalesce (coalesce a b) c = coalesce a (coalesce b c) := by
  cases a <;> rfl

theorem foldl_coalesce (ds : List Decision) (a : Option String) :
    ds.foldl (fun acc dec => coalesce dec.remarks acc) a
      = coalesce (ds.foldl (fun acc dec => coalesce dec.remarks acc) none) a := by
  induction ds generalizing a with
  | nil => simp [coalesce]
  | cons d ds ih =>
    simp only [List.foldl_cons]
    rw [ih (coalesce d.remarks a), ih (coalesce d.remarks none),
      coalesce_none_right, coalesce_assoc]

theorem find?_updateWhere (l : List Challan) (challan_id : Nat)
    (f : Challan → Challan) (hf : ∀ c, (f c).id = c.id) :
    (l.map (fun c => if c.id == challan_id then f c else c)).find?
        (fun c => c.id == challan_id)
      = (l.find? (fun c => c.id == challan_id)).map f := by
  induction l with
  | nil => rfl
  | cons a l ih =>
    by_cases h : a.id = challan_id
    · simp [h, hf]
    · have hbeq : ¬((a.id == challan_id) = true) := by simp [h]
      rw [List.map_cons, if_neg hbeq,
        @List.find?_cons_of_neg _ (fun c => c.id == challan_id) a
          (List.map (fun c => if c.id == challan_id then f c else c) l) hbeq,
        @List.find?_cons_of_neg _ (fun c => c.id == challan_id) a l hbeq]
      exact ih

theorem get_after_updateWhere (db : DB) (challan_id : Nat)
    (f : Challan → Challan) (hf : ∀ c, (f c).id = c.id) :
    ChallanDatabase.get_challan_status
        (ChallanDatabase.updateWhere db challan_id f) challan_id
      = (ChallanDatabase.get_challan_status db challan_id).map f := by
  unfold ChallanDatabase.get_challan_status ChallanDatabase.updateWhere
  exact find?_updateWhere db.challans challan_id f hf

theorem remarks_step (db : DB) (challan_id : Nat) (role status : String)
    (now : Nat) (rem : Option String) (c : Challan)
    (hrole : role = "manager" ∨ role = "hod" ∨ role = "it_admin")
    (hc : ChallanDatabase.get_challan_status db challan_id = some c) :
    ∃ c', ChallanDatabase.get_challan_status
        (ChallanDatabase.update_approval_status db challan_id role status now
          rem) challan_id = some c' ∧
      c'.remarks = coalesce rem c.remarks := by
  rcases hrole with h | h | h <;> subst h <;>
    unfold ChallanDatabase.update_approval_status
  · rw [if_pos rfl,
      get_after_updateWhere db challan_id
        (ChallanDatabase.set_manager_row status now rem) (fun _ => rfl), hc]
    exact ⟨_, rfl, rfl⟩
  · rw [if_neg (by decide), if_pos rfl,
      get_after_updateWhere db challan_id
        (ChallanDatabase.set_hod_row status now rem) (fun _ => rfl), hc]
    exact ⟨_, rfl, rfl⟩
  · rw [if_neg (by decide), if_neg (by decide), if_pos rfl,
      get_after_updateWhere db challan_id
        (ChallanDatabase.set_it_row status now rem) (fun _ => rfl), hc]
    exact ⟨_, rfl, rfl⟩

theorem remarks_after_decisions (challan_id : Nat) (ds : List Decision) :
    ∀ (db : DB) (c : Challan),
      ChallanDatabase.get_challan_status db challan_id = some c →
      (∀ d ∈ ds, d.role = "manager" ∨ d.role = "hod" ∨ d.role = "it_admin") →
      (ChallanDatabase.get_challan_status (apply_decisions db challan_id ds)
          challan_id).map Challan.remarks
        = some (ds.foldl (fun acc d => coalesce d.remarks acc) c.remarks) := by
  induction ds with
  | nil =>
    intro db c hc _
    simp [apply_decisions, hc]
  | cons d ds ih =>
    intro db c hc hall
    obtain ⟨c', hc', hrem⟩ := remarks_step db challan_id d.role d.status d.time
      d.remarks c (hall d (List.mem_cons_self _ _)) hc
    have heq : apply_decisions db challan_id (d :: ds) =
        apply_decisions
          (ChallanDatabase.update_approval_status db challan_id d.role d.status
            d.time d.remarks) challan_id ds := rfl
    rw [heq, ih _ c' hc' (fun x hx => hall x (List.mem_cons_of_mem _ hx)), hrem]
    simp [List.foldl_cons]

/-- C8: after any sequence of stage decisions on a request, the stored
shared `remarks` field is the last non-null remarks supplied, falling back
to the request's previous remarks when every decision supplied null —
`COALESCE(?, remarks)` keeps the old value on a null write and overwrites
on a non-null one. -/
theorem C8_remarks_last_nonnull_write (db : DB) (challan_id : Nat)
    (ds : List Decision) (c : Challan)
    (hc : ChallanDatabase.get_challan_status db challan_id = some c)
    (hall : ∀ d ∈ ds, d.role = "manager" ∨ d.role = "hod" ∨ d.role = "it_admin") :
    (ChallanDatabase.get_challan_status (apply_decisions db challan_id ds)
        challan_id).map Challan.remarks
      = some (coalesce (last_remarks ds) c.remarks) := by
  rw [remarks_after_decisions challan_id ds db c hc hall, foldl_coalesce]
  rfl

/-- A concrete decision sequence: the manager approves with remarks, then
the hod approves without remarks. -/
def sampleDecisions : List Decision :=
  [ { role := "manager", status := "approved", time := 11,
      remarks := some "ok to proceed" },
    { role := "hod", status := "approved", time := 12, remarks := none } ]

/-- Witness for C8 at a concrete store: the manager's remarks survive the
hod's null write. -/
theorem C8_witness :
    (ChallanDatabase.get_challan_status
        (apply_decisions freshDB 1 sampleDecisions) 1).map Challan.remarks
      = some (coalesce (last_remarks sampleDecisions) freshChallan.remarks) :=
  C8_remarks_last_nonnull_write freshDB 1 sampleDecisions freshChallan
    (by decide) (by decide)

/-- The immutable descriptive fields of a request are equal between two
row values. -/
def immut_eq (c c' : Challan) : Prop :=
  c'.id = c.id ∧ c'.device_type = c.device_type ∧
  c'.device_model = c.device_model ∧ c'.serial_number = c.serial_number ∧
  c'.quantity = c.quantity ∧ c'.purpose = c.purpose ∧
  c'.requested_by = c.requested_by ∧ c'.request_date = c.request_date

/-- Frame relation of a decide call targeting `role`: the immutable
descriptive fields are unchanged, and every stage other than the targeted
one keeps its status and decision timestamp (so only the targeted stage's
fields, the shared remarks and `final_status` may change). -/
def frame_ok (role : String) (c c' : Challan) : Prop :=
  immut_eq c c' ∧
  (role ≠ "manager" → c'.manager_status = c.manager_status ∧
    c'.manager_approval_date = c.manager_approval_date) ∧
  (role ≠ "hod" → c'.hod_status = c.hod_status ∧
    c'.hod_approval_date = c.hod_approval_date) ∧
  (role ≠ "it_admin" → c'.it_status = c.it_status ∧
    c'.it_approval_date = c.it_approval_date)

theorem frame_ok_rfl (role : String) (c : Challan) : frame_ok role c c :=
  ⟨⟨rfl, rfl, rfl, rfl, rfl, rfl, rfl, rfl⟩,
    fun _ => ⟨rfl, rfl⟩, fun _ => ⟨rfl, rfl⟩, fun _ => ⟨rfl, rfl⟩⟩

theorem forall₂_frame_refl (role : String) (l : List Challan) :
    List.Forall₂ (frame_ok role) l l :=
  List.forall₂_same.mpr (fun c _ => frame_ok_rfl role c)

theorem forall₂_map_self {R : Challan → Challan → Prop} (f : Challan → Challan)
    (l : List Challan) (h : ∀ c ∈ l, R c (f c)) :
    List.Forall₂ R l (l.map f) := by
  induction l with
  | nil => exact List.Forall₂.nil
  | cons a l ih =>
    exact List.Forall₂.cons (h a (List.mem_cons_self _ _))
      (ih (fun c hc => h c (List.mem_cons_of_mem _ hc)))

theorem update_approval_frame (db : DB) (challan_id : Nat)
    (role status : String) (now : Nat) (rem : Option String) :
    List.Forall₂ (frame_ok role) db.challans
      (ChallanDatabase.update_approval_status db challan_id role status now
        rem).challans := by
  unfold ChallanDatabase.update_approval_status ChallanDatabase.updateWhere
  split_ifs with h1 h2 h3
  · refine forall₂_map_self _ _ (fun c _ => ?_)
    by_cases hcid : (c.id == challan_id) = true
    · rw [if_pos hcid]
      exact ⟨⟨rfl, rfl, rfl, rfl, rfl, rfl, rfl, rfl⟩,
        fun hne => absurd h1 hne, fun _ => ⟨rfl, rfl⟩, fun _ => ⟨rfl, rfl⟩⟩
    · rw [if_neg hcid]
      exact frame_ok_rfl role c
  · refine forall₂_map_self _ _ (fun c _ => ?_)
    by_cases hcid : (c.id == challan_id) = true
    · rw [if_pos hcid]
      exact ⟨⟨rfl, rfl, rfl, rfl, rfl, rfl, rfl, rfl⟩,
        fun _ => ⟨rfl, rfl⟩, fun hne => absurd h2 hne, fun _ => ⟨rfl, rfl⟩⟩
    · rw [if_neg hcid]
      exact frame_ok_rfl role c
  · refine forall₂_map_self _ _ (fun c _ => ?_)
    by_cases hcid : (c.id == challan_id) = true
    · rw [if_pos hcid]
      exact ⟨⟨rfl, rfl, rfl, rfl, rfl, rfl, rfl, rfl⟩,
        fun _ => ⟨rfl, rfl⟩, fun _ => ⟨rfl, rfl⟩, fun hne => absurd h3 hne⟩
    · rw [if_neg hcid]
      exact frame_ok_rfl role c
  · exact forall₂_frame_refl role db.challans

/-- C9: a decide call (approve or reject), whatever it returns, never
changes a request's immutable descriptive fields, and never touches the
status or decision timestamp of a stage other than the targeted one: only
the targeted stage's fields, the shared remarks and `final_status` may
change. -/
theorem C9_decide_preserves_immutable_fields (db : DB) (challan_id : Nat)
    (role username : String) (remarks : Option String) (reason : String)
    (now : Nat) :
    List.Forall₂ (frame_ok role) db.challans
      (McpServer.approve_challan db challan_id role username remarks
        now).1.challans ∧
    List.Forall₂ (frame_ok role) db.challans
      (McpServer.reject_challan db challan_id role username reason
        now).1.challans := by
  constructor
  · unfold McpServer.approve_challan
    cases hc : ChallanDatabase.get_challan_status db challan_id with
    | none => exact forall₂_frame_refl role db.challans
    | some c =>
      cases hu : ChallanDatabase.get_user_by_username db username with
      | none => exact forall₂_frame_refl role db.challans
      | some user =>
        dsimp only
        split_ifs <;>
          first
            | exact forall₂_frame_refl role db.challans
            | exact update_approval_frame db challan_id role "approved" now
                remarks
  · unfold McpServer.reject_challan
    cases hc : ChallanDatabase.get_challan_status db challan_id with
    | none => exact forall₂_frame_refl role db.challans
    | some c =>
      cases hu : ChallanDatabase.get_user_by_username db username with
      | none => exact forall₂_frame_refl role db.challans
      | some user =>
        dsimp only
        split_ifs <;>
          first
            | exact forall₂_frame_refl role db.challans
            | exact update_approval_frame db challan_id role "rejected" now
                (some reason)

end ChallanMCP
